import Mathlib

/-!
Shallow embedding of the Onyx desktop shell (desktop/src-tauri/src/main.rs):
configuration persistence (load_config / save_config / set_server_url /
get_server_url / reset_config), the global-shortcut handler, and the chrome
(title-bar) injection retry loop.

The filesystem and the external libraries at the process boundary are modelled
explicitly:
- the config file on disk is `Option FileContent`; `FileContent.json c` stands
  for file text that serde_json deserializes to the config `c` (serde's
  serialize/deserialize round trip for this two-string struct), `.corrupt`
  for text on which `serde_json::from_str` fails;
- fallibility of `ProjectDirs::from` (config dir resolution),
  `fs::create_dir_all`, `fs::read_to_string` and `fs::write` is modelled by
  the Boolean fields of `Fs`;
- `url::Url::parse` (used with `.unwrap()` in the new-window shortcut task)
  is abstracted by `urlParseOk`, which captures exactly what the program
  relies on for http/https URLs: the scheme part followed by a nonempty host
  with no space.
-/

/-- From main.rs: `const DEFAULT_SERVER_URL: &str = "https://cloud.onyx.app";` -/
def DEFAULT_SERVER_URL : String := "https://cloud.onyx.app"

/-- From main.rs: `fn default_window_title() -> String`. -/
def default_window_title : String := "Onyx"

/-- From main.rs: `struct AppConfig \x7b server_url, window_title \x7d`. -/
structure AppConfig where
  server_url : String
  window_title : String
deriving DecidableEq, Repr

/-- From main.rs: `impl Default for AppConfig`. -/
def AppConfig.default : AppConfig :=
  ⟨DEFAULT_SERVER_URL, default_window_title⟩

/-- Content of the config file on disk: either text that serde_json parses to
an `AppConfig` (`json c`), or text on which parsing fails (`corrupt`). -/
inductive FileContent where
  | json (c : AppConfig)
  | corrupt
deriving DecidableEq, Repr

/-- State of the filesystem at the config path, plus the success/failure of
the OS calls the config code makes: `dirResolvable` models
`ProjectDirs::from("app","onyx","desktop")` returning `Some`, `mkdirOk`
models `fs::create_dir_all`, `readOk` models `fs::read_to_string`, `writeOk`
models `fs::write`; `file` is the config file (`none` = does not exist). -/
structure Fs where
  dirResolvable : Bool
  mkdirOk : Bool
  readOk : Bool
  writeOk : Bool
  file : Option FileContent
deriving DecidableEq, Repr

/-- From main.rs: `fn get_config_dir() -> Option<PathBuf>`; paths are not
modelled beyond resolvability, so the payload is `Unit`. -/
def get_config_dir (fs : Fs) : Option Unit :=
  if fs.dirResolvable then some () else none

/-- From main.rs: `fn get_config_path() -> Option<PathBuf>`
(`get_config_dir().map(|dir| dir.join(CONFIG_FILE_NAME))`). -/
def get_config_path (fs : Fs) : Option Unit :=
  (get_config_dir fs).map (fun d => d)

/-- From main.rs: `fn save_config(config: &AppConfig) -> Result<(), String>`.
Serialization (`serde_json::to_string_pretty`) cannot fail for a struct of
two strings, so that error branch is not reachable in the model; on success
the file holds text that parses back to `config`. -/
def save_config (config : AppConfig) (fs : Fs) : Except String Fs :=
  match get_config_dir fs with
  | none => .error "Could not determine config directory"
  | some _ =>
    if fs.mkdirOk = false then .error "Failed to create config dir"
    else if fs.writeOk = false then .error "Failed to write config"
    else .ok { fs with file := some (.json config) }

/-- From main.rs: `fn load_config() -> AppConfig`. Returns the loaded config
together with the filesystem after the call (the call writes a default file
when none exists). -/
def load_config (fs : Fs) : AppConfig × Fs :=
  match get_config_path fs with
  | none => (AppConfig.default, fs)
  | some _ =>
    match fs.file with
    | some content =>
      match fs.readOk, content with
      | true, .json c => (c, fs)
      | true, .corrupt => (AppConfig.default, fs)
      | false, _ => (AppConfig.default, fs)
    | none =>
      match save_config AppConfig.default fs with
      | .ok fs2 => (AppConfig.default, fs2)
      | .error _ => (AppConfig.default, fs)

/-- Character-list prefix test. -/
def isPrefixOfChars : List Char → List Char → Bool
  | [], _ => true
  | _ :: _, [] => false
  | a :: as, b :: bs => a = b && isPrefixOfChars as bs

/-- Rust `s.starts_with(pat)` for a string pattern. (Core `String.startsWith`
goes through byte positions and does not reduce in the kernel, so the test is
stated on the character lists.) -/
def str_starts_with (s pat : String) : Bool :=
  isPrefixOfChars pat.data s.data

/-- Whole-process state: the `ConfigState(RwLock<AppConfig>)` contents plus
the filesystem. -/
structure SysState where
  config : AppConfig
  fs : Fs
deriving DecidableEq, Repr

/-- Rust `url.trim_end_matches('/')`: removes every trailing `/`. -/
def trim_end_matches_slash (s : String) : String :=
  String.mk ((s.data.reverse.dropWhile (fun c => c = '/')).reverse)

/-- From main.rs: `fn get_server_url(state) -> String`. -/
def get_server_url (s : SysState) : String :=
  s.config.server_url

/-- From main.rs: `fn set_server_url(state, url) -> Result<String, String>`.
The write-lock mutation `config.server_url = url.trim_end_matches('/')`
happens before `save_config(&config)?`, so on a save error the returned state
already carries the new value. -/
def set_server_url (url : String) (s : SysState) : Except String String × SysState :=
  if !(str_starts_with url "http://") && !(str_starts_with url "https://") then
    (.error "URL must start with http:// or https://", s)
  else
    let config2 : AppConfig := { s.config with server_url := trim_end_matches_slash url }
    match save_config config2 s.fs with
    | .error e => (.error e, ⟨config2, s.fs⟩)
    | .ok fs2 => (.ok config2.server_url, ⟨config2, fs2⟩)

/-- From main.rs: `fn reset_config(state) -> Result<(), String>`; like
`set_server_url`, the lock-guarded config is overwritten with the defaults
before `save_config(&config)?` runs. -/
def reset_config (s : SysState) : Except String Unit × SysState :=
  match save_config AppConfig.default s.fs with
  | .error e => (.error e, ⟨AppConfig.default, s.fs⟩)
  | .ok fs2 => (.ok (), ⟨AppConfig.default, fs2⟩)

/-- The six global shortcut actions registered in `setup_shortcuts`. -/
inductive ShortcutAction where
  | newChat
  | reload
  | back
  | forward
  | newWindow
  | openSettings
deriving DecidableEq, Repr

/-- Observable side effects of one shortcut dispatch: script evaluations
against a labelled window, opening the config file in an editor, and the
spawned new-window creation task. -/
inductive Effect where
  | navigate (label : String) (url : String)
  | reloadPage (label : String)
  | historyBack (label : String)
  | historyForward (label : String)
  | openConfigFile
  | spawnWindowTask (url : String)
deriving DecidableEq, Repr

/-- From main.rs `setup_shortcuts`, the closure passed to `on_shortcuts`:
the five navigation/settings actions are guarded by
`if let Some(window) = app_handle.get_webview_window("main")`, while the
`new_window_shortcut` branch sits outside that guard and spawns its task
unconditionally. `mainExists` models whether the "main" window exists. -/
def shortcut_handler (mainExists : Bool) (server_url : String)
    (sc : ShortcutAction) : List Effect :=
  (if mainExists then
    match sc with
    | .newChat => [.navigate "main" (server_url ++ "/chat")]
    | .reload => [.reloadPage "main"]
    | .back => [.historyBack "main"]
    | .forward => [.historyForward "main"]
    | .openSettings => [.openConfigFile]
    | .newWindow => []
  else []) ++ (if sc = .newWindow then [.spawnWindowTask server_url] else [])

/-- Abstraction of `url::Url::parse` success on the strings this program can
feed it: an http/https URL parses exactly when the scheme is followed by a
nonempty host (the text up to the first `/`, `?` or `#`) containing no
space. Strings such as `"http:"` or `"not-a-url"` fail to parse. -/
def urlParseOk (s : String) : Bool :=
  (str_starts_with s "http://" && hostOk (String.mk (s.data.drop 7)))
  || (str_starts_with s "https://" && hostOk (String.mk (s.data.drop 8)))
where
  hostOk (rest : String) : Bool :=
    let host := rest.data.takeWhile (fun c => c ≠ '/' && c ≠ '?' && c ≠ '#')
    !host.isEmpty && host.all (fun c => c ≠ ' ')

/-- Outcome of the new-window shortcut task (main.rs lines 336-366):
`url.parse().unwrap()` panics when parsing fails; otherwise
`WebviewWindowBuilder::build` either succeeds (`windowBuilt`, after which
vibrancy and chrome injection run) or fails and the `if let Ok` silently
drops it (`buildFailed`). -/
inductive NewWindowResult where
  | panicked
  | windowBuilt
  | buildFailed
deriving DecidableEq, Repr

/-- The task spawned by the new-window shortcut: parse the stored server URL
(unwrap), then build the window. `buildOk` models the platform window
creation succeeding. -/
def new_window_shortcut_task (server_url : String) (buildOk : Bool) : NewWindowResult :=
  if urlParseOk server_url = false then .panicked
  else if buildOk then .windowBuilt else .buildFailed

/-- One attempt of the chrome-injection loop: `window_clone.eval(script)`
fails when the window has been destroyed; the loop discards the result. -/
def window_eval (alive : Bool) : Except String Unit :=
  if alive then .ok () else .error "window not found"

/-- The retry task from main.rs (`for i in 0..5 \x7b sleep(1000 + i*1000);
let _ = window_clone.eval(titlebar_script); \x7d`): the trace of
(delay in ms, discarded eval result) pairs. `aliveAt i` tells whether the
window still exists at attempt `i`; the task is total — a destroyed window
only makes the discarded results errors, it never aborts the loop. -/
def chrome_injection_task (aliveAt : Nat → Bool) : List (Nat × Except String Unit) :=
  (List.range 5).map (fun i => (1000 + i * 1000, window_eval (aliveAt i)))

/-- Does the string end in `/`? (stated on the character list). -/
def lastCharIsSlash (s : String) : Bool :=
  match s.data.reverse.head? with
  | some c => c = '/'
  | none => false

/-- Spec-modelled normalization, following the spec's words in §4.5: "normalize
by stripping a single trailing slash". Used only to compare the spec's stated
rule with the source's `trim_end_matches('/')`. -/
def spec_strip_single_trailing_slash (s : String) : String :=
  if lastCharIsSlash s then String.mk (s.data.dropLast) else s

/- Concrete states used by witnesses and counterexamples. -/

/-- A healthy filesystem with no config file yet. -/
def good_fs : Fs := ⟨true, true, true, true, none⟩

/-- Startup state on a healthy filesystem with the default config. -/
def state0 : SysState := ⟨AppConfig.default, good_fs⟩

/-- A filesystem whose config file was hand-edited to valid JSON holding a
non-URL `server_url`; `load_config` returns it verbatim. -/
def hand_edited_fs : Fs := ⟨true, true, true, true, some (.json ⟨"not-a-url", "Onyx"⟩)⟩

/-- A filesystem on which `fs::write` fails (e.g. disk full). -/
def bad_write_fs : Fs :=
  ⟨true, true, true, false, some (.json ⟨"https://old.example", "Onyx"⟩)⟩

/-- State holding a previously saved URL, on the failing-write filesystem. -/
def bad_write_state : SysState := ⟨⟨"https://old.example", "Onyx"⟩, bad_write_fs⟩

example : trim_end_matches_slash "https://example.com//" = "https://example.com" := by decide
example : trim_end_matches_slash "http://" = "http:" := by decide
example : str_starts_with "http://" "http://" = true := by decide
example : urlParseOk "https://cloud.onyx.app" = true := by decide
example : urlParseOk "not-a-url" = false := by decide
example : urlParseOk "http:" = false := by decide
example : spec_strip_single_trailing_slash "https://example.com//" = "https://example.com/" := by decide

/- Helper lemmas. -/

/-- After dropping leading slashes, the head is not a slash. -/
theorem dropWhile_slash_head_ne (l : List Char) :
    (l.dropWhile (fun c => c = '/')).head? ≠ some '/' := by
  induction l with
  | nil => simp [List.dropWhile]
  | cons a t ih =>
    rw [List.dropWhile_cons]
    by_cases h : a = '/'
    · simpa [h] using ih
    · simp [h]

/-- `trim_end_matches_slash` leaves no trailing slash. -/
theorem lastCharIsSlash_trim_end (s : String) :
    lastCharIsSlash (trim_end_matches_slash s) = false := by
  have hne := dropWhile_slash_head_ne s.data.reverse
  unfold trim_end_matches_slash lastCharIsSlash
  rw [show (String.mk ((s.data.reverse.dropWhile (fun c => c = '/')).reverse)).data
      = (s.data.reverse.dropWhile (fun c => c = '/')).reverse from rfl]
  rw [List.reverse_reverse]
  cases hh : (s.data.reverse.dropWhile (fun c => c = '/')).head? with
  | none => rfl
  | some c =>
    rw [hh] at hne
    have hc : c ≠ '/' := by intro he; exact hne (by rw [he])
    simp [hc]

/- Claim theorems. -/

/-- Claim C1, counterexample: the claim's normalization rule (quoted from the
spec: "strips a single trailing slash") fails on `"https://example.com//"`;
the code's `trim_end_matches('/')` yields `"https://example.com"`, while
stripping a single trailing slash would yield `"https://example.com/"`. -/
theorem C1_counterexample :
    (set_server_url "https://example.com//" state0).1 = .ok "https://example.com"
    ∧ spec_strip_single_trailing_slash "https://example.com//" = "https://example.com/"
    ∧ "https://example.com" ≠ "https://example.com/" :=
  ⟨rfl, by decide, by decide⟩

/-- Claim C1, amended: for every `u` starting with `http://` or `https://`,
when the config directory resolves and directory creation, file write and
file read succeed, `set_server_url u` returns `u` with ALL trailing slashes
removed, `get_server_url` afterwards returns that same value, and a fresh
`load_config` from the resulting disk state returns it too. -/
theorem C1_amended (u : String) (s : SysState)
    (h : (str_starts_with u "http://" || str_starts_with u "https://") = true)
    (hd : s.fs.dirResolvable = true) (hm : s.fs.mkdirOk = true)
    (hw : s.fs.writeOk = true) (hr : s.fs.readOk = true) :
    (set_server_url u s).1 = .ok (trim_end_matches_slash u)
    ∧ get_server_url (set_server_url u s).2 = trim_end_matches_slash u
    ∧ (load_config (set_server_url u s).2.fs).1.server_url = trim_end_matches_slash u := by
  have hg : (!(str_starts_with u "http://") && !(str_starts_with u "https://")) = false := by
    rw [← Bool.not_or, h]; rfl
  simp [set_server_url, hg, save_config, get_config_dir, get_config_path,
    load_config, get_server_url, hd, hm, hw, hr]

/-- Claim C1, witness for the amended theorem at `u = "https://example.com/"`
starting from the default startup state. -/
theorem C1_witness :
    (str_starts_with "https://example.com/" "http://"
      || str_starts_with "https://example.com/" "https://") = true
    ∧ ((set_server_url "https://example.com/" state0).1
        = .ok (trim_end_matches_slash "https://example.com/")
      ∧ get_server_url (set_server_url "https://example.com/" state0).2
        = trim_end_matches_slash "https://example.com/"
      ∧ (load_config (set_server_url "https://example.com/" state0).2.fs).1.server_url
        = trim_end_matches_slash "https://example.com/") :=
  ⟨by decide, C1_amended "https://example.com/" state0 (by decide) rfl rfl rfl rfl⟩

/-- Claim C2, counterexample: with a filesystem on which `fs::write` fails,
`set_server_url "https://new.example"` propagates the error, but the
in-memory configuration now holds `"https://new.example"`, not its prior
value `"https://old.example"` — the mutation precedes the failed save. -/
theorem C2_counterexample :
    (set_server_url "https://new.example" bad_write_state).1
      = .error "Failed to write config"
    ∧ (set_server_url "https://new.example" bad_write_state).2.config.server_url
      = "https://new.example"
    ∧ bad_write_state.config.server_url = "https://old.example"
    ∧ "https://new.example" ≠ "https://old.example" :=
  ⟨rfl, rfl, rfl, by decide⟩

/-- Claim C2, amended: when a syntactically valid URL is passed but the disk
write fails, the error is propagated and the on-disk file is unchanged, but
the in-memory configuration already holds the new normalized URL (the
write-lock mutation happens before the save attempt). -/
theorem C2_amended (u : String) (s : SysState)
    (h : (str_starts_with u "http://" || str_starts_with u "https://") = true)
    (hd : s.fs.dirResolvable = true) (hm : s.fs.mkdirOk = true)
    (hw : s.fs.writeOk = false) :
    (set_server_url u s).1 = .error "Failed to write config"
    ∧ (set_server_url u s).2.config.server_url = trim_end_matches_slash u
    ∧ (set_server_url u s).2.fs = s.fs := by
  have hg : (!(str_starts_with u "http://") && !(str_starts_with u "https://")) = false := by
    rw [← Bool.not_or, h]; rfl
  simp [set_server_url, hg, save_config, get_config_dir, hd, hm, hw]

/-- Claim C2, witness for the amended theorem at `u = "https://new.example"`
on the failing-write state. -/
theorem C2_witness :
    (str_starts_with "https://new.example" "http://"
      || str_starts_with "https://new.example" "https://") = true
    ∧ ((set_server_url "https://new.example" bad_write_state).1
        = .error "Failed to write config"
      ∧ (set_server_url "https://new.example" bad_write_state).2.config.server_url
        = trim_end_matches_slash "https://new.example"
      ∧ (set_server_url "https://new.example" bad_write_state).2.fs = bad_write_state.fs) :=
  ⟨by decide, C2_amended "https://new.example" bad_write_state (by decide) rfl rfl rfl⟩

/-- Claim C5: for every `u` starting with neither `http://` nor `https://`,
`set_server_url u` returns the validation error and the whole state —
in-memory configuration and on-disk file — is unchanged. -/
theorem C5_set_server_url_invalid (u : String) (s : SysState)
    (h1 : str_starts_with u "http://" = false)
    (h2 : str_starts_with u "https://" = false) :
    (set_server_url u s).1 = .error "URL must start with http:// or https://"
    ∧ (set_server_url u s).2 = s := by
  simp [set_server_url, h1, h2]

/-- Claim C5, witness at `u = "ftp://example.com"`. -/
theorem C5_witness :
    str_starts_with "ftp://example.com" "http://" = false
    ∧ str_starts_with "ftp://example.com" "https://" = false
    ∧ ((set_server_url "ftp://example.com" state0).1
        = .error "URL must start with http:// or https://"
      ∧ (set_server_url "ftp://example.com" state0).2 = state0) :=
  ⟨by decide, by decide,
    C5_set_server_url_invalid "ftp://example.com" state0 (by decide) (by decide)⟩

/-- Claim C10: `set_server_url "http://"` passes validation and stores and
returns `"http:"`, and likewise `"https://"` stores `"https:"`; the stored
value no longer starts with `http://` or `https://`. -/
theorem C10_scheme_only_urls :
    (set_server_url "http://" state0).1 = .ok "http:"
    ∧ (set_server_url "http://" state0).2.config.server_url = "http:"
    ∧ str_starts_with "http:" "http://" = false
    ∧ str_starts_with "http:" "https://" = false
    ∧ (set_server_url "https://" state0).1 = .ok "https:"
    ∧ (set_server_url "https://" state0).2.config.server_url = "https:" :=
  ⟨rfl, rfl, by decide, by decide, rfl, rfl⟩

/-- Under a passed validation guard, `set_server_url` stores the trimmed URL
whether or not the save succeeds. -/
theorem set_server_url_config_eq (u : String) (s : SysState)
    (hg : (!(str_starts_with u "http://") && !(str_starts_with u "https://")) = false) :
    (set_server_url u s).2.config
      = { s.config with server_url := trim_end_matches_slash u } := by
  unfold set_server_url
  simp only [hg, Bool.false_eq_true, if_false]
  split <;> rfl

/-- `reset_config` always installs the defaults in memory, whether or not the
save succeeds. -/
theorem reset_config_config_eq (s : SysState) :
    (reset_config s).2.config = AppConfig.default := by
  unfold reset_config
  split <;> rfl

/-- Claim C3, counterexample: the invariant fails twice. `load_config` on a
hand-edited file holding valid JSON with `server_url = "not-a-url"` installs
that non-URL verbatim; and `set_server_url "http://"` (which passes
validation) stores `"http:"`, which is not a valid absolute URL. -/
theorem C3_counterexample :
    (load_config hand_edited_fs).1.server_url = "not-a-url"
    ∧ urlParseOk "not-a-url" = false
    ∧ (set_server_url "http://" state0).2.config.server_url = "http:"
    ∧ urlParseOk "http:" = false :=
  ⟨rfl, by decide, rfl, by decide⟩

/-- Claim C3, amended: after `reset_config` the stored config is the default,
whose `server_url` is a valid absolute URL with no trailing slash; after a
validated `set_server_url` the stored `server_url` has no trailing slash (but
need not be a valid URL); `load_config` installs the file's `server_url`
verbatim, with no validation at all. -/
theorem C3_amended (u : String) (s : SysState) (c : AppConfig) (fs : Fs)
    (h : (str_starts_with u "http://" || str_starts_with u "https://") = true)
    (hd : fs.dirResolvable = true) (hr : fs.readOk = true)
    (hf : fs.file = some (.json c)) :
    (reset_config s).2.config = AppConfig.default
    ∧ lastCharIsSlash AppConfig.default.server_url = false
    ∧ urlParseOk AppConfig.default.server_url = true
    ∧ lastCharIsSlash (set_server_url u s).2.config.server_url = false
    ∧ (load_config fs).1 = c := by
  have hg : (!(str_starts_with u "http://") && !(str_starts_with u "https://")) = false := by
    rw [← Bool.not_or, h]; rfl
  refine ⟨reset_config_config_eq s, by decide, by decide, ?_, ?_⟩
  · rw [set_server_url_config_eq u s hg]
    exact lastCharIsSlash_trim_end u
  · simp [load_config, get_config_path, get_config_dir, hd, hr, hf]

/-- Claim C3, witness for the amended theorem: `u = "https://example.com/"`
from the startup state, and the hand-edited filesystem for the load part. -/
theorem C3_witness :
    (str_starts_with "https://example.com/" "http://"
      || str_starts_with "https://example.com/" "https://") = true
    ∧ ((reset_config state0).2.config = AppConfig.default
      ∧ lastCharIsSlash AppConfig.default.server_url = false
      ∧ urlParseOk AppConfig.default.server_url = true
      ∧ lastCharIsSlash (set_server_url "https://example.com/" state0).2.config.server_url
        = false
      ∧ (load_config hand_edited_fs).1 = ⟨"not-a-url", "Onyx"⟩) :=
  ⟨by decide, C3_amended "https://example.com/" state0 ⟨"not-a-url", "Onyx"⟩
    hand_edited_fs (by decide) rfl rfl rfl⟩

/-- Claim C4, counterexample: with no "main" window, the new-window shortcut
still spawns its window-creation task — it is not a no-op. -/
theorem C4_counterexample :
    shortcut_handler false DEFAULT_SERVER_URL .newWindow
      = [Effect.spawnWindowTask DEFAULT_SERVER_URL]
    ∧ [Effect.spawnWindowTask DEFAULT_SERVER_URL] ≠ ([] : List Effect) :=
  ⟨rfl, by decide⟩

/-- Claim C4, amended: with no "main" window, new-chat, reload, back, forward
and open-settings are no-ops (no effects at all), but the new-window shortcut
spawns its window-creation task regardless of the main window's existence. -/
theorem C4_amended (a : ShortcutAction) (u : String) (h : a ≠ .newWindow) :
    shortcut_handler false u a = []
    ∧ shortcut_handler false u .newWindow = [Effect.spawnWindowTask u] := by
  refine ⟨?_, rfl⟩
  cases a <;> first | rfl | exact absurd rfl h

/-- Claim C4, witness for the amended theorem at the reload action. -/
theorem C4_witness :
    ShortcutAction.reload ≠ ShortcutAction.newWindow
    ∧ (shortcut_handler false DEFAULT_SERVER_URL .reload = []
      ∧ shortcut_handler false DEFAULT_SERVER_URL .newWindow
        = [Effect.spawnWindowTask DEFAULT_SERVER_URL]) :=
  ⟨by decide, C4_amended .reload DEFAULT_SERVER_URL (by decide)⟩

/-- Claim C6: `load_config` with no existing file writes the defaults to disk
and returns them; with a file that fails to parse it returns the defaults and
leaves the filesystem untouched (no write); with an unresolvable config
directory it returns the defaults having attempted no I/O at all. -/
theorem C6_load_config_cases (fs1 fs2 fs3 : Fs)
    (h1d : fs1.dirResolvable = true) (h1f : fs1.file = none)
    (h1m : fs1.mkdirOk = true) (h1w : fs1.writeOk = true)
    (h2d : fs2.dirResolvable = true) (h2r : fs2.readOk = true)
    (h2f : fs2.file = some .corrupt)
    (h3 : fs3.dirResolvable = false) :
    load_config fs1
      = (AppConfig.default, { fs1 with file := some (.json AppConfig.default) })
    ∧ load_config fs2 = (AppConfig.default, fs2)
    ∧ load_config fs3 = (AppConfig.default, fs3) := by
  refine ⟨?_, ?_, ?_⟩
  · simp [load_config, get_config_path, get_config_dir, save_config, h1d, h1f, h1m, h1w]
  · simp [load_config, get_config_path, get_config_dir, h2d, h2r, h2f]
  · simp [load_config, get_config_path, get_config_dir, h3]

/-- A filesystem whose config file exists but holds unparseable JSON. -/
def corrupt_fs : Fs := ⟨true, true, true, true, some .corrupt⟩

/-- A filesystem on which the config directory cannot be determined. -/
def no_dir_fs : Fs := ⟨false, true, true, true, none⟩

/-- Claim C6, witness at a fresh healthy filesystem, a corrupt-file
filesystem, and an unresolvable-directory filesystem. -/
theorem C6_witness :
    good_fs.dirResolvable = true ∧ good_fs.file = none
    ∧ corrupt_fs.file = some .corrupt ∧ no_dir_fs.dirResolvable = false
    ∧ (load_config good_fs
        = (AppConfig.default, { good_fs with file := some (.json AppConfig.default) })
      ∧ load_config corrupt_fs = (AppConfig.default, corrupt_fs)
      ∧ load_config no_dir_fs = (AppConfig.default, no_dir_fs)) :=
  ⟨rfl, rfl, rfl, rfl,
    C6_load_config_cases good_fs corrupt_fs no_dir_fs rfl rfl rfl rfl rfl rfl rfl rfl⟩

/-- Claim C7: when the disk cooperates, `reset_config` succeeds, sets the
configuration to the documented defaults — server_url
`"https://cloud.onyx.app"` and window title `"Onyx"` — and persists that
default configuration to the config file. -/
theorem C7_reset_config (s : SysState)
    (hd : s.fs.dirResolvable = true) (hm : s.fs.mkdirOk = true)
    (hw : s.fs.writeOk = true) :
    (reset_config s).1 = .ok ()
    ∧ (reset_config s).2.config.server_url = "https://cloud.onyx.app"
    ∧ (reset_config s).2.config.window_title = "Onyx"
    ∧ (reset_config s).2.fs.file = some (.json AppConfig.default) := by
  simp [reset_config, save_config, get_config_dir, hd, hm, hw, AppConfig.default,
    DEFAULT_SERVER_URL, default_window_title]

/-- Claim C7, witness at a state whose stored URL differs from the default. -/
theorem C7_witness :
    bad_write_state.fs.dirResolvable = true ∧ bad_write_state.fs.mkdirOk = true
    ∧ state0.fs.writeOk = true
    ∧ ((reset_config state0).1 = .ok ()
      ∧ (reset_config state0).2.config.server_url = "https://cloud.onyx.app"
      ∧ (reset_config state0).2.config.window_title = "Onyx"
      ∧ (reset_config state0).2.fs.file = some (.json AppConfig.default)) :=
  ⟨rfl, rfl, rfl, C7_reset_config state0 rfl rfl rfl⟩

/-- Claim C8: the chrome-injection retry task performs exactly 5 attempts with
waits of 1000, 2000, 3000, 4000, 5000 ms — a non-decreasing schedule — for
EVERY window-liveness history `aliveAt`, including histories in which the
window is destroyed partway (its evals fail and are discarded; the task still
terminates after the fixed 5 attempts with no error). -/
theorem C8_injection_bounded (aliveAt : Nat → Bool) :
    (chrome_injection_task aliveAt).length = 5
    ∧ (chrome_injection_task aliveAt).map Prod.fst = [1000, 2000, 3000, 4000, 5000]
    ∧ List.Chain' (fun a b => a ≤ b) ((chrome_injection_task aliveAt).map Prod.fst) := by
  refine ⟨rfl, rfl, ?_⟩
  rw [show (chrome_injection_task aliveAt).map Prod.fst
      = [1000, 2000, 3000, 4000, 5000] from rfl]
  norm_num [List.chain'_cons, List.chain'_singleton]

/-- Claim C8, witness: the schedule for a window destroyed before the first
attempt. -/
theorem C8_witness :
    (chrome_injection_task (fun _ => false)).length = 5
    ∧ (chrome_injection_task (fun _ => false)).map Prod.fst
      = [1000, 2000, 3000, 4000, 5000]
    ∧ List.Chain' (fun a b => a ≤ b)
        ((chrome_injection_task (fun _ => false)).map Prod.fst) :=
  C8_injection_bounded (fun _ => false)

/-- Claim C9: the new-window shortcut task panics exactly when the stored
server_url fails to parse as a URL, and an unparseable server_url IS reachable
through the public interface: `load_config` installs a hand-edited config
file's `server_url` verbatim, so the unwrap's failure branch is reachable. -/
theorem C9_new_window_panic_condition :
    (∀ s b, new_window_shortcut_task s b = .panicked ↔ urlParseOk s = false)
    ∧ (load_config hand_edited_fs).1.server_url = "not-a-url"
    ∧ urlParseOk "not-a-url" = false
    ∧ (∀ b, new_window_shortcut_task (load_config hand_edited_fs).1.server_url b
        = .panicked) := by
  refine ⟨?_, rfl, by decide, ?_⟩
  · intro s b
    unfold new_window_shortcut_task
    cases hu : urlParseOk s <;> cases b <;> simp [hu]
  · intro b
    cases b <;> rfl
